import Mathlib

/-!
Verification of the stream-connection lifecycle of the EarningsCall
live-player demo client.

The embedding follows the two source components:
* `StreamPlayer` (connect / disconnect / HLS event handlers / volume),
  shallowly embedded as pure transition functions on a `PlayerState`,
  each returning the list of engine/surface calls it issues;
* `EventList.fetchEvents`, embedded as a pure function of the fetch
  outcome on a `ListState`.

A separate small transition system (`SysState`, `stepAct`, `Reach`)
models the component-driven reachable behaviour, tracking engine
instance identities, to settle the single-live-engine claim.
-/

namespace LivePlayer

/-- Session state, mirroring the `status` React state variable
(`'disconnected' | 'connecting' | 'connected' | 'error'`). -/
inductive Status
  | disconnected
  | connecting
  | connected
  | error
deriving DecidableEq, Repr

/-- The rendering surface (the `<video>` element) as seen by the
controller: paused flag, `src` attribute and `volume` property. -/
structure Video where
  paused : Bool
  src : String
  volume : Rat
deriving DecidableEq, Repr

/-- Component state of `StreamPlayer`: the `videoRef` (none when no
surface is bound), the `hlsRef` as a liveness-agnostic flag (whether
`hlsRef.current` is non-null), and the React state variables
`isPlaying`, `status`, `error`, `volume`. -/
structure PlayerState where
  video : Option Video
  hls : Bool
  isPlaying : Bool
  status : Status
  error : Option String
  volume : Rat
deriving DecidableEq, Repr

/-- Calls the controller issues to the embedded engine or the surface. -/
inductive Call
  | createEngine
  | loadSource (url : String)
  | attachMedia
  | startLoad
  | recoverMediaError
  | destroy
  | play
  | pause
deriving DecidableEq, Repr

/-- `hls.js` error categories (`Hls.ErrorTypes`). -/
inductive ErrorType
  | networkError
  | mediaError
  | keySystemError
  | muxError
  | otherError
deriving DecidableEq, Repr

/-- Rendering of an error category for the error descriptor
(template literal ` \x7bdata.type\x7d: \x7bdata.details\x7d `). -/
def ErrorType.str : ErrorType → String
  | .networkError => "networkError"
  | .mediaError => "mediaError"
  | .keySystemError => "keySystemError"
  | .muxError => "muxError"
  | .otherError => "otherError"

/-- Browser capabilities queried by `connectStream`:
`Hls.isSupported()` and
`video.canPlayType('application/vnd.apple.mpegurl')`. -/
structure Env where
  hlsSupported : Bool
  canPlayNative : Bool
deriving DecidableEq, Repr

/-- `connectStream` (src/unnamed/part_001 lines 26-89).  Reads the
video ref; if null, returns immediately.  Otherwise sets status to
`connecting`, clears the error, and branches on engine support:
supported  ⇒ create an engine, `loadSource(streamUrl)`, `attachMedia`,
store it in `hlsRef`; native HLS ⇒ assign `video.src = streamUrl`;
neither ⇒ status `error` with the fixed descriptor.  The
MANIFEST_PARSED / ERROR handlers it registers are modelled as the
separate transitions `onManifestParsed` / `onHlsError` below.  Note
the function performs no check on `streamUrl`. -/
def connectStream (env : Env) (streamUrl : String) (s : PlayerState) :
    PlayerState × List Call :=
  match s.video with
  | none => (s, [])
  | some v =>
    let s1 : PlayerState := { s with status := .connecting, error := none }
    if env.hlsSupported then
      ({ s1 with hls := true },
        [Call.createEngine, Call.loadSource streamUrl, Call.attachMedia])
    else if env.canPlayNative then
      ({ s1 with video := some { v with src := streamUrl } }, [])
    else
      ({ s1 with status := .error,
                 error := some "HLS is not supported in this browser" }, [])

/-- The `MANIFEST_PARSED` handler (lines 44-48): sets status
`connected`, calls `video.play()` and sets the playing flag. -/
def onManifestParsed (s : PlayerState) : PlayerState × List Call :=
  ({ s with status := .connected,
            isPlaying := true,
            video := s.video.map (fun v => { v with paused := false }) },
    [Call.play])

/-- The `ERROR` handler (lines 50-71).  Non-fatal errors are only
logged.  A fatal error sets status `error` and the descriptor, then
switches on the category: network ⇒ `hls.startLoad()`; media ⇒
`hls.recoverMediaError()`; default ⇒ `hls.destroy()` and playing flag
cleared (the `hlsRef` is not nulled in the default branch). -/
def onHlsError (fatal : Bool) (cat : ErrorType) (details : String)
    (s : PlayerState) : PlayerState × List Call :=
  if fatal then
    let s1 : PlayerState :=
      { s with status := .error, error := some (cat.str ++ ": " ++ details) }
    match cat with
    | .networkError => (s1, [Call.startLoad])
    | .mediaError => (s1, [Call.recoverMediaError])
    | _ => ({ s1 with isPlaying := false }, [Call.destroy])
  else (s, [])

/-- `disconnectStream` (lines 91-107): pause the surface and clear its
source (when bound), destroy and null the engine ref (when present),
then reset status, playing flag and error. -/
def disconnectStream (s : PlayerState) : PlayerState × List Call :=
  let vc : Option Video × List Call :=
    match s.video with
    | some v => (some { v with paused := true, src := "" }, [Call.pause])
    | none => (none, [])
  let hc : List Call := if s.hls then [Call.destroy] else []
  ({ s with video := vc.1,
            hls := false,
            status := .disconnected,
            isPlaying := false,
            error := none }, vc.2 ++ hc)

/-- The `useEffect` cleanup (lines 18-23): destroy the engine and null
the ref when one is held; nothing else is touched. -/
def effectCleanup (s : PlayerState) : PlayerState × List Call :=
  if s.hls then ({ s with hls := false }, [Call.destroy]) else (s, [])

/-- The `useEffect` body (lines 13-17): invoke `connectStream` only
when both the event and a non-empty stream URL are present.  A falsy
`streamUrl` (absent / empty string) is modelled as `""`. -/
def effectBody (env : Env) (eventPresent : Bool) (streamUrl : String)
    (s : PlayerState) : PlayerState × List Call :=
  if eventPresent ∧ streamUrl ≠ "" then connectStream env streamUrl s
  else (s, [])

/-- `handleVolumeChange` (lines 122-128) with the slider value already
parsed to a number: store it in the `volume` state variable and assign
it to the surface's volume property when a surface is bound.  No
clamping or range check is performed. -/
def handleVolumeChange (v : Rat) (s : PlayerState) : PlayerState :=
  { s with volume := v,
           video := s.video.map (fun vid => { vid with volume := v }) }

/-! ### Event list fetching (`EventList.fetchEvents`) -/

/-- An event record from the live-events API. -/
structure EventRec where
  exchange : String
  symbol : String
  companyName : String
  year : Nat
  quarter : Nat
  eventDate : String
  streamingUrl : String
deriving DecidableEq, Repr

/-- Component state of `EventList`: the `events`, `loading` and
`error` React state variables. -/
structure ListState where
  events : List EventRec
  loading : Bool
  error : Option String
deriving DecidableEq, Repr

/-- Outcome of one `fetch(API_URL)` round trip: either the fetch
itself rejects, or a response arrives with an HTTP status and a body
whose JSON decoding may fail; on success the decoded envelope's
`events` field may be absent (`none`). -/
inductive FetchResult
  | netFail (msg : String)
  | response (httpStatus : Nat) (body : Except String (Option (List EventRec)))
deriving Repr

/-- Whether a `FetchResult` takes one of the failure paths of
`fetchEvents` (fetch rejection, non-2xx status, or JSON parse error).
`response.ok` is status in [200, 300). -/
def FetchResult.isFailure : FetchResult → Bool
  | .netFail _ => true
  | .response st body =>
    if 200 ≤ st ∧ st < 300 then
      match body with
      | .error _ => true
      | .ok _ => false
    else true

/-- `fetchEvents` (src/unnamed/part_000 lines 17-35) as a function of
the round-trip outcome.  The body sets `loading := true` and clears
the error, then: a non-ok response throws before the body is read; a
parse failure throws; on success `events := data.events || []`.  The
catch clause stores the message; the finally clause clears `loading`.
The `events` state is written only on the success path. -/
def fetchEvents (r : FetchResult) (s : ListState) : ListState :=
  let s1 : ListState := { s with loading := true, error := none }
  let s2 : ListState :=
    match r with
    | .netFail m => { s1 with error := some m }
    | .response st body =>
      if 200 ≤ st ∧ st < 300 then
        match body with
        | .error m => { s1 with error := some m }
        | .ok evs => { s1 with events := evs.getD [] }
      else { s1 with error := some ("HTTP error! status: " ++ toString st) }
  { s2 with loading := false }

/-! ### Reachable system behaviour with engine identities

To settle claims about engine instances over time, this transition
system tracks each created `Hls` instance by a fresh id.  `live` lists
the ids of instances created and not yet destroyed; `hlsRef` is the id
currently stored in the ref (a destroyed instance may remain
referenced, as in the fatal-default branch).  Actions are the ways the
component can drive the controller: the `useEffect` on an
(event, streamUrl) change (cleanup, then guarded connect), the
Connect button (rendered only while status is `disconnected`), the
Disconnect button, engine events (which only a live, referenced
instance can emit), and unmount (cleanup alone). -/

/-- System state for the engine-identity model.  `videoBound`,
`supported` and `canNative` are environment facts fixed for a run. -/
structure SysState where
  status : Status
  hlsRef : Option Nat
  live : List Nat
  nextId : Nat
  videoBound : Bool
  supported : Bool
  canNative : Bool
deriving DecidableEq, Repr

/-- Destroy the referenced engine instance, if any: it stops being
live.  The ref itself is not cleared here. -/
def destroyRef (s : SysState) : SysState :=
  match s.hlsRef with
  | some i => { s with live := s.live.filter (fun j => j ≠ i) }
  | none => s

/-- `connectStream` at the system level: no-op without a surface;
otherwise status `connecting`, and when the engine is supported a
fresh instance is created, made live, and stored in the ref.  Without
engine support, native playback keeps `connecting` and the
unsupported branch ends in `error`; neither creates an instance. -/
def sysConnect (s : SysState) : SysState :=
  if s.videoBound then
    if s.supported then
      { s with status := .connecting, hlsRef := some s.nextId,
               live := s.live ++ [s.nextId], nextId := s.nextId + 1 }
    else if s.canNative then { s with status := .connecting }
    else { s with status := .error }
  else s

/-- `disconnectStream` at the system level: destroy the referenced
instance, clear the ref, status `disconnected`. -/
def sysDisconnect (s : SysState) : SysState :=
  let s1 := destroyRef s
  { s1 with hlsRef := none, status := .disconnected }

/-- The `useEffect` cleanup at the system level: destroy the
referenced instance and clear the ref. -/
def sysCleanup (s : SysState) : SysState :=
  let s1 := destroyRef s
  { s1 with hlsRef := none }

/-- The ways the component drives the controller. -/
inductive Act
  | effectChange (eventPresent : Bool) (urlPresent : Bool)
  | clickConnect
  | clickDisconnect
  | engineManifest
  | engineFatal (cat : ErrorType)
  | unmount
deriving DecidableEq, Repr

/-- One component-driven step.  The Connect button exists only while
`status = disconnected`; the Disconnect button only otherwise.  Engine
events are delivered only by a live instance that is the one
registered in the ref (a destroyed instance has its listeners torn
down). -/
def stepAct : Act → SysState → SysState
  | .effectChange ev url, s =>
    let s1 := sysCleanup s
    if ev ∧ url then sysConnect s1 else s1
  | .clickConnect, s =>
    if s.status = .disconnected then sysConnect s else s
  | .clickDisconnect, s =>
    if s.status = .disconnected then s else sysDisconnect s
  | .engineManifest, s =>
    match s.hlsRef with
    | some i => if i ∈ s.live then { s with status := .connected } else s
    | none => s
  | .engineFatal cat, s =>
    match s.hlsRef with
    | some i =>
      if i ∈ s.live then
        let s1 : SysState := { s with status := .error }
        match cat with
        | .networkError => s1
        | .mediaError => s1
        | _ => { s1 with live := s1.live.filter (fun j => j ≠ i) }
      else s
    | none => s

  | .unmount, s => sysCleanup s

/-- Initial component state: `disconnected`, null ref, no instance. -/
def initState (vb sup can : Bool) : SysState :=
  { status := .disconnected, hlsRef := none, live := [], nextId := 0,
    videoBound := vb, supported := sup, canNative := can }

/-- States reachable by driving the component. -/
inductive Reach : SysState → Prop
  | init (vb sup can : Bool) : Reach (initState vb sup can)
  | step {s : SysState} (a : Act) : Reach s → Reach (stepAct a s)

/-- Inductive invariant: the live instances are exactly the referenced
one or none; in `disconnected` no instance is live; and the referenced
id was allocated before `nextId`. -/
def SysInv (s : SysState) : Prop :=
  (s.live = [] ∨ ∃ i, s.hlsRef = some i ∧ s.live = [i]) ∧
  (s.status = .disconnected → s.live = []) ∧
  (∀ i, s.hlsRef = some i → i < s.nextId)

theorem destroyRef_live_nil {s : SysState}
    (h : s.live = [] ∨ ∃ i, s.hlsRef = some i ∧ s.live = [i]) :
    (destroyRef s).live = [] := by
  rcases h with h1 | ⟨i, href, hlive⟩
  · unfold destroyRef
    cases s.hlsRef <;> simp [h1]
  · unfold destroyRef
    rw [href]
    simp [hlive]

theorem destroyRef_fields (s : SysState) :
    (destroyRef s).status = s.status ∧ (destroyRef s).hlsRef = s.hlsRef ∧
      (destroyRef s).nextId = s.nextId := by
  unfold destroyRef
  cases href : s.hlsRef <;> simp [href]

theorem sysCleanup_live_nil {s : SysState}
    (h : s.live = [] ∨ ∃ i, s.hlsRef = some i ∧ s.live = [i]) :
    (sysCleanup s).live = [] :=
  destroyRef_live_nil h

theorem sysCleanup_fields (s : SysState) :
    (sysCleanup s).status = s.status ∧ (sysCleanup s).hlsRef = none ∧
      (sysCleanup s).nextId = s.nextId := by
  unfold sysCleanup
  exact ⟨(destroyRef_fields s).1, rfl, (destroyRef_fields s).2.2⟩

theorem sysCleanup_inv {s : SysState} (h : SysInv s) : SysInv (sysCleanup s) := by
  refine ⟨Or.inl (sysCleanup_live_nil h.1), fun _ => sysCleanup_live_nil h.1, ?_⟩
  intro i hi
  rw [(sysCleanup_fields s).2.1] at hi
  exact absurd hi (by simp)

theorem sysConnect_inv {s : SysState} (h : s.live = [])
    (h2 : ∀ i, s.hlsRef = some i → i < s.nextId) : SysInv (sysConnect s) := by
  unfold sysConnect
  split
  · split
    · refine ⟨Or.inr ⟨s.nextId, rfl, by simp [h]⟩, fun hc => Status.noConfusion hc, ?_⟩
      intro i hi
      simp at hi
      subst hi
      show s.nextId < s.nextId + 1
      omega
    · split
      · exact ⟨Or.inl h, fun hc => Status.noConfusion hc, h2⟩
      · exact ⟨Or.inl h, fun hc => Status.noConfusion hc, h2⟩
  · exact ⟨Or.inl h, fun _ => h, h2⟩

theorem sysDisconnect_inv {s : SysState} (h : SysInv s) :
    SysInv (sysDisconnect s) := by
  refine ⟨Or.inl ?_, fun _ => ?_, ?_⟩
  · exact destroyRef_live_nil h.1
  · exact destroyRef_live_nil h.1
  · intro i hi
    exact absurd hi (by simp [sysDisconnect])

theorem sysInv_step {s : SysState} (h : SysInv s) (a : Act) :
    SysInv (stepAct a s) := by
  obtain ⟨hlive, hdisc, hfresh⟩ := h
  cases a with
  | effectChange ev url =>
    show SysInv (let s1 := sysCleanup s; if ev ∧ url then sysConnect s1 else s1)
    have hc : SysInv (sysCleanup s) := sysCleanup_inv ⟨hlive, hdisc, hfresh⟩
    by_cases hg : ev ∧ url
    · simp only [if_pos hg]
      exact sysConnect_inv (sysCleanup_live_nil hlive) hc.2.2
    · simp only [if_neg hg]
      exact hc
  | clickConnect =>
    show SysInv (if s.status = .disconnected then sysConnect s else s)
    by_cases hg : s.status = .disconnected
    · simp only [if_pos hg]
      exact sysConnect_inv (hdisc hg) hfresh
    · simp only [if_neg hg]
      exact ⟨hlive, hdisc, hfresh⟩
  | clickDisconnect =>
    show SysInv (if s.status = .disconnected then s else sysDisconnect s)
    by_cases hg : s.status = .disconnected
    · simp only [if_pos hg]
      exact ⟨hlive, hdisc, hfresh⟩
    · simp only [if_neg hg]
      exact sysDisconnect_inv ⟨hlive, hdisc, hfresh⟩
  | engineManifest =>
    show SysInv (match s.hlsRef with
      | some i => if i ∈ s.live then { s with status := .connected } else s
      | none => s)
    cases href : s.hlsRef with
    | none => exact ⟨hlive, hdisc, hfresh⟩
    | some i =>
      by_cases hm : i ∈ s.live
      · simp only [if_pos hm]
        have hlive2 : s.live = [i] := by
          rcases hlive with h1 | ⟨k, hk1, hk2⟩
          · rw [h1] at hm; exact absurd hm (List.not_mem_nil i)
          · rw [href] at hk1
            cases hk1
            exact hk2
        exact ⟨Or.inr ⟨i, rfl, hlive2⟩, fun hc => Status.noConfusion hc,
          fun j hj => hfresh j (href.trans hj)⟩
      · simp only [if_neg hm]
        exact ⟨hlive, hdisc, hfresh⟩
  | engineFatal cat =>
    show SysInv (match s.hlsRef with
      | some i =>
        if i ∈ s.live then
          let s1 : SysState := { s with status := .error }
          match cat with
          | .networkError => s1
          | .mediaError => s1
          | _ => { s1 with live := s1.live.filter (fun j => j ≠ i) }
        else s
      | none => s)
    cases href : s.hlsRef with
    | none => exact ⟨hlive, hdisc, hfresh⟩
    | some i =>
      by_cases hm : i ∈ s.live
      · simp only [if_pos hm]
        have hlive2 : s.live = [i] := by
          rcases hlive with h1 | ⟨k, hk1, hk2⟩
          · rw [h1] at hm; exact absurd hm (List.not_mem_nil i)
          · rw [href] at hk1
            cases hk1
            exact hk2
        cases cat with
        | networkError =>
          exact ⟨Or.inr ⟨i, rfl, hlive2⟩, fun hc => Status.noConfusion hc,
            fun j hj => hfresh j (href.trans hj)⟩
        | mediaError =>
          exact ⟨Or.inr ⟨i, rfl, hlive2⟩, fun hc => Status.noConfusion hc,
            fun j hj => hfresh j (href.trans hj)⟩
        | keySystemError =>
          exact ⟨Or.inl (by simp [hlive2]), fun hc => Status.noConfusion hc,
            fun j hj => hfresh j (href.trans hj)⟩
        | muxError =>
          exact ⟨Or.inl (by simp [hlive2]), fun hc => Status.noConfusion hc,
            fun j hj => hfresh j (href.trans hj)⟩
        | otherError =>
          exact ⟨Or.inl (by simp [hlive2]), fun hc => Status.noConfusion hc,
            fun j hj => hfresh j (href.trans hj)⟩
      · simp only [if_neg hm]
        exact ⟨hlive, hdisc, hfresh⟩
  | unmount =>
    exact sysCleanup_inv ⟨hlive, hdisc, hfresh⟩

theorem sysInv_reach {s : SysState} (h : Reach s) : SysInv s := by
  induction h with
  | init vb sup can => exact ⟨Or.inl rfl, fun _ => rfl, fun i hi => by simp [initState] at hi⟩
  | step a _ ih => exact sysInv_step ih a

theorem sysConnect_live (s : SysState) :
    (sysConnect s).live = s.live ∨ (sysConnect s).live = s.live ++ [s.nextId] := by
  unfold sysConnect
  split
  · split
    · exact Or.inr rfl
    · split
      · exact Or.inl rfl
      · exact Or.inl rfl
  · exact Or.inl rfl

/-! ### Concrete sample states -/

/-- A bound rendering surface in its initial configuration. -/
def sampleVideo : Video := { paused := true, src := "", volume := 1 }

/-- Player state while connecting, with a live engine referenced. -/
def connectingState : PlayerState :=
  { video := some sampleVideo, hls := true, isPlaying := false,
    status := .connecting, error := none, volume := 1 }

/-- Player state connected and playing. -/
def connectedState : PlayerState :=
  { video := some { paused := false, src := "", volume := 1 }, hls := true,
    isPlaying := true, status := .connected, error := none, volume := 1 }

/-- Player state with a bound surface, disconnected, no engine. -/
def idleState : PlayerState :=
  { video := some sampleVideo, hls := false, isPlaying := false,
    status := .disconnected, error := none, volume := 1 }

/-- Player state before the rendering surface is bound. -/
def unboundState : PlayerState :=
  { video := none, hls := false, isPlaying := false,
    status := .disconnected, error := none, volume := 1 }

/-- The demo event record. -/
def sampleEvent : EventRec :=
  { exchange := "NASDAQ", symbol := "AAPL", companyName := "Apple Inc.",
    year := 2024, quarter := 4, eventDate := "2024-11-01T17:00:00Z",
    streamingUrl := "https://x/playlist.m3u8" }

/-- An event-list state already holding one event. -/
def sampleList : ListState :=
  { events := [sampleEvent], loading := false, error := none }

/-! ### Claims -/

/-- C1: a fatal error delivered while the session is `connecting` or
`connected` sets the state to `error` and keeps it there, issuing for a
network-category error exactly one startLoad (resumeLoad) call, for a
media-category error exactly one recoverMediaError call, and for every
other category exactly the destroy call, with no engine call after the
destroy. -/
theorem fatal_error_recovery_policy (s : PlayerState) (d : String)
    (h : s.status = .connecting ∨ s.status = .connected) :
    ((onHlsError true .networkError d s).1.status = .error ∧
      (onHlsError true .networkError d s).2 = [Call.startLoad]) ∧
    ((onHlsError true .mediaError d s).1.status = .error ∧
      (onHlsError true .mediaError d s).2 = [Call.recoverMediaError]) ∧
    (∀ c : ErrorType, c ≠ ErrorType.networkError → c ≠ ErrorType.mediaError →
      (onHlsError true c d s).1.status = .error ∧
      (onHlsError true c d s).2 = [Call.destroy]) := by
  refine ⟨⟨rfl, rfl⟩, ⟨rfl, rfl⟩, ?_⟩
  intro c hn hm
  cases c with
  | networkError => exact absurd rfl hn
  | mediaError => exact absurd rfl hm
  | keySystemError => exact ⟨rfl, rfl⟩
  | muxError => exact ⟨rfl, rfl⟩
  | otherError => exact ⟨rfl, rfl⟩

/-- Witness for C1 at a concrete connecting state, instantiating the
network-category case and one non-network, non-media category. -/
theorem fatal_error_recovery_policy_witness :
    ((onHlsError true .networkError "fragLoadError" connectingState).1.status = .error ∧
      (onHlsError true .networkError "fragLoadError" connectingState).2 = [Call.startLoad]) ∧
    ((onHlsError true .otherError "internalException" connectingState).1.status = .error ∧
      (onHlsError true .otherError "internalException" connectingState).2 = [Call.destroy]) :=
  ⟨(fatal_error_recovery_policy connectingState "fragLoadError" (Or.inl rfl)).1,
   (fatal_error_recovery_policy connectingState "internalException" (Or.inl rfl)).2.2
     ErrorType.otherError (by decide) (by decide)⟩

/-- C5: from `connecting`, a manifest-parsed signal yields state
`connected`, sets the playing flag, and issues exactly one play() call
on the rendering surface. -/
theorem manifest_parsed_connects (s : PlayerState)
    (h : s.status = .connecting) :
    (onManifestParsed s).1.status = .connected ∧
    (onManifestParsed s).1.isPlaying = true ∧
    (onManifestParsed s).2 = [Call.play] :=
  ⟨rfl, rfl, rfl⟩

/-- Witness for C5 at a concrete connecting state. -/
theorem manifest_parsed_connects_witness :
    (onManifestParsed connectingState).1.status = .connected ∧
    (onManifestParsed connectingState).1.isPlaying = true ∧
    (onManifestParsed connectingState).2 = [Call.play] :=
  manifest_parsed_connects connectingState rfl

/-- C8: invoking connect while no rendering surface is bound is a
complete no-op: the state is returned unchanged and no engine call is
issued. -/
theorem connect_unbound_noop (env : Env) (url : String) (s : PlayerState)
    (h : s.video = none) : connectStream env url s = (s, []) := by
  unfold connectStream
  rw [h]

/-- Witness for C8 at the unbound sample state. -/
theorem connect_unbound_noop_witness :
    connectStream { hlsSupported := true, canPlayNative := true }
      "https://x/playlist.m3u8" unboundState = (unboundState, []) :=
  connect_unbound_noop _ _ _ rfl

/-- C9: disconnect is total over session states and idempotent: from
every state it yields `disconnected`, playing flag false, error cleared
and the engine released, and applying it twice gives the same state as
applying it once. -/
theorem disconnect_idempotent (s : PlayerState) :
    (disconnectStream s).1.status = .disconnected ∧
    (disconnectStream s).1.isPlaying = false ∧
    (disconnectStream s).1.error = none ∧
    (disconnectStream s).1.hls = false ∧
    (disconnectStream (disconnectStream s).1).1 = (disconnectStream s).1 := by
  refine ⟨rfl, rfl, rfl, rfl, ?_⟩
  unfold disconnectStream
  cases s.video <;> rfl

/-- C10: with the engine unsupported and no native HLS playback, connect
ends in state `error` with the fixed descriptor, leaves the engine
reference unchanged and issues no engine call. -/
theorem connect_unsupported_error (env : Env) (url : String)
    (s : PlayerState) (v : Video) (hv : s.video = some v)
    (hs : env.hlsSupported = false) (hc : env.canPlayNative = false) :
    (connectStream env url s).1.status = .error ∧
    (connectStream env url s).1.error =
      some "HLS is not supported in this browser" ∧
    (connectStream env url s).1.hls = s.hls ∧
    (connectStream env url s).2 = [] := by
  unfold connectStream
  rw [hv, hs, hc]
  exact ⟨rfl, rfl, rfl, rfl⟩

/-- Witness for C10 at the idle sample state in a browser with neither
engine support nor native HLS. -/
theorem connect_unsupported_error_witness :
    (connectStream { hlsSupported := false, canPlayNative := false }
      "https://x/playlist.m3u8" idleState).1.status = .error ∧
    (connectStream { hlsSupported := false, canPlayNative := false }
      "https://x/playlist.m3u8" idleState).1.error =
      some "HLS is not supported in this browser" ∧
    (connectStream { hlsSupported := false, canPlayNative := false }
      "https://x/playlist.m3u8" idleState).1.hls = idleState.hls ∧
    (connectStream { hlsSupported := false, canPlayNative := false }
      "https://x/playlist.m3u8" idleState).2 = [] :=
  connect_unsupported_error _ _ _ sampleVideo rfl rfl rfl

/-- C2 counterexample: the effect cleanup run while `connected` releases
the engine but leaves the session state `connected`, not
`disconnected`, refuting that teardown always results in state
`disconnected`. -/
theorem cleanup_leaves_status
    : (effectCleanup connectedState).1.hls = false ∧
      (effectCleanup connectedState).1.status = Status.connected ∧
      Status.connected ≠ Status.disconnected :=
  ⟨rfl, rfl, by decide⟩

/-- C2 (amended): teardown never leaks an engine — the effect cleanup
and the disconnect operation both release the engine instance and clear
the reference, and when an engine was held the cleanup issues the
destroy call; but only disconnect resets the session state to
`disconnected`, the cleanup leaves it unchanged. -/
theorem teardown_releases_engine (s : PlayerState) :
    (effectCleanup s).1.hls = false ∧
    (effectCleanup s).1.status = s.status ∧
    (s.hls = true → (effectCleanup s).2 = [Call.destroy]) ∧
    (disconnectStream s).1.hls = false ∧
    (disconnectStream s).1.status = Status.disconnected := by
  refine ⟨?_, ?_, ?_, rfl, rfl⟩
  · by_cases hh : s.hls <;> simp [effectCleanup, hh]
  · by_cases hh : s.hls <;> simp [effectCleanup, hh]
  · intro hh
    simp [effectCleanup, hh]

/-- Witness for C2 (amended) at a concrete connecting state with a live
engine. -/
theorem teardown_releases_engine_witness :
    (effectCleanup connectingState).1.hls = false ∧
    (effectCleanup connectingState).2 = [Call.destroy] ∧
    (disconnectStream connectingState).1.status = Status.disconnected :=
  ⟨(teardown_releases_engine connectingState).1,
   (teardown_releases_engine connectingState).2.2.1 rfl,
   (teardown_releases_engine connectingState).2.2.2.2⟩

/-- C3 counterexample: connect invoked with an empty stream URL and a
bound surface still transitions from `disconnected` to `connecting` —
the operation itself performs no URL check, so a state transition does
occur with an absent URL. -/
theorem connect_empty_url_transitions
    : idleState.status = Status.disconnected ∧
      (connectStream { hlsSupported := true, canPlayNative := false } ""
        idleState).1.status = Status.connecting :=
  ⟨rfl, rfl⟩

/-- C3 (amended): the non-empty-URL precondition is enforced only by
the auto-connect effect, which invokes connect just when both the event
and a non-empty URL are present and is a no-op otherwise; the connect
operation itself does not inspect the URL.  With a bound surface,
connect moves the session to `connecting` (from any state, in
particular `disconnected` and `error`) whenever the engine is supported
or native HLS playback is available. -/
theorem connect_url_precondition (env : Env) (s : PlayerState) (url : String) :
    effectBody env true "" s = (s, []) ∧
    (∀ v : Video, s.video = some v →
      env.hlsSupported = true ∨ env.canPlayNative = true →
      (connectStream env url s).1.status = Status.connecting) := by
  constructor
  · simp [effectBody]
  · intro v hv hsup
    unfold connectStream
    rw [hv]
    cases henv : env.hlsSupported with
    | true => simp
    | false =>
      cases hcan : env.canPlayNative with
      | true => simp
      | false =>
        rw [henv, hcan] at hsup
        rcases hsup with hc | hc <;> exact Bool.noConfusion hc

/-- Witness for C3 (amended): empty-URL effect is a no-op on the idle
state, and connect with the demo URL reaches `connecting`. -/
theorem connect_url_precondition_witness :
    effectBody { hlsSupported := true, canPlayNative := false } true ""
      idleState = (idleState, []) ∧
    (connectStream { hlsSupported := true, canPlayNative := false }
      "https://x/playlist.m3u8" idleState).1.status = Status.connecting :=
  ⟨(connect_url_precondition { hlsSupported := true, canPlayNative := false }
      idleState "https://x/playlist.m3u8").1,
   (connect_url_precondition { hlsSupported := true, canPlayNative := false }
      idleState "https://x/playlist.m3u8").2 sampleVideo rfl (Or.inl rfl)⟩

/-- C6: every failed fetch — rejected request, non-2xx status, or JSON
parse failure — leaves the previously held event list unchanged, sets
the error flag, and ends with loading cleared. -/
theorem failed_fetch_preserves_events (r : FetchResult) (s : ListState)
    (h : r.isFailure = true) :
    (fetchEvents r s).events = s.events ∧
    (fetchEvents r s).error ≠ none ∧
    (fetchEvents r s).loading = false := by
  cases r with
  | netFail m => exact ⟨rfl, by simp [fetchEvents], rfl⟩
  | response st body =>
    by_cases hok : 200 ≤ st ∧ st < 300
    · cases body with
      | error m =>
        refine ⟨?_, ?_, rfl⟩ <;> simp [fetchEvents, hok]
      | ok evs =>
        simp [FetchResult.isFailure, hok] at h
    · refine ⟨?_, ?_, rfl⟩ <;> simp [fetchEvents, hok]

/-- Witness for C6: a rejected fetch over a non-empty list keeps the
list. -/
theorem failed_fetch_preserves_events_witness :
    (fetchEvents (FetchResult.netFail "Failed to fetch") sampleList).events
      = sampleList.events ∧
    (fetchEvents (FetchResult.netFail "Failed to fetch") sampleList).error
      ≠ none ∧
    (fetchEvents (FetchResult.netFail "Failed to fetch") sampleList).loading
      = false :=
  failed_fetch_preserves_events _ _ rfl

/-- C7 counterexample: the volume handler performs no rejection or
clamping — applied with 2 it drives the surface volume to 2, outside
[0, 1]. -/
theorem volume_exceeds_range
    : (handleVolumeChange 2 connectedState).video =
        some { paused := false, src := "", volume := (2 : Rat) } ∧
      ¬ ((2 : Rat) ≤ 1) :=
  ⟨rfl, by norm_num⟩

/-- C7 (amended): the volume handler stores and applies exactly the
given value — 0.5 yields exactly 0.5 — and never changes the session
state; it neither rejects nor clamps out-of-range values, range
enforcement being left to the slider input's bounds. -/
theorem volume_change_exact (v : Rat) (s : PlayerState) :
    (handleVolumeChange v s).volume = v ∧
    (handleVolumeChange v s).status = s.status ∧
    ∀ vid : Video, s.video = some vid →
      (handleVolumeChange v s).video = some { vid with volume := v } := by
  refine ⟨rfl, rfl, ?_⟩
  intro vid hv
  unfold handleVolumeChange
  rw [hv]
  rfl

/-- Witness for C7 (amended) at volume one half on the connected
state. -/
theorem volume_change_exact_witness :
    (handleVolumeChange (1 / 2 : Rat) connectedState).volume = 1 / 2 ∧
    (handleVolumeChange (1 / 2 : Rat) connectedState).status =
      connectedState.status ∧
    (handleVolumeChange (1 / 2 : Rat) connectedState).video =
      some { paused := false, src := "", volume := (1 / 2 : Rat) } :=
  ⟨(volume_change_exact (1 / 2) connectedState).1,
   (volume_change_exact (1 / 2) connectedState).2.1,
   (volume_change_exact (1 / 2) connectedState).2.2 _ rfl⟩

/-- C4: in every reachable system state at most one live engine
instance exists, and an effect-driven connect invalidates the
previously referenced instance first — that instance is no longer live
after the effect runs. -/
theorem single_live_engine (s : SysState) (h : Reach s) :
    s.live.length ≤ 1 ∧
    ∀ (i : Nat) (ev url : Bool), s.hlsRef = some i →
      i ∉ (stepAct (Act.effectChange ev url) s).live := by
  obtain ⟨hlive, hdisc, hfresh⟩ := sysInv_reach h
  constructor
  · rcases hlive with h1 | ⟨i, _, h2⟩
    · simp [h1]
    · simp [h2]
  · intro i ev url href
    have hilt : i < s.nextId := hfresh i href
    have hnil : (sysCleanup s).live = [] := sysCleanup_live_nil hlive
    have hnext : (sysCleanup s).nextId = s.nextId := (sysCleanup_fields s).2.2
    show i ∉ (if ev ∧ url then sysConnect (sysCleanup s) else sysCleanup s).live
    by_cases hg : ev ∧ url
    · rw [if_pos hg]
      rcases sysConnect_live (sysCleanup s) with hl | hl <;> rw [hl, hnil]
      · simp
      · rw [hnext]
        simp
        omega
    · rw [if_neg hg, hnil]
      simp

/-- Witness for C4: driving the component from the initial state through
two effect-driven connects keeps at most one live instance, and the
first engine instance (id 0) is not live after the second effect. -/
theorem single_live_engine_witness :
    (stepAct (Act.effectChange true true) (initState true true false)).live.length ≤ 1 ∧
    (0 : Nat) ∉ (stepAct (Act.effectChange true true)
      (stepAct (Act.effectChange true true) (initState true true false))).live :=
  ⟨(single_live_engine _
      (Reach.step (Act.effectChange true true) (Reach.init true true false))).1,
   (single_live_engine _
      (Reach.step (Act.effectChange true true) (Reach.init true true false))).2
     0 true true rfl⟩

end LivePlayer
